import Mathlib

/-
Verification of the SmartHomeValidation validator (src/validation/validators.py)
against its natural-language specification.

The Python code is shallowly embedded: dynamic values become the inductive type
PyValue, Python exceptions become the Except monad (an uncaught exception is an
Except.error escaping the function), and dictionaries become association lists
in insertion order. All configuration constants carry their default values from
the source.
-/

/-- Values of the dynamic (Python) value universe the validator manipulates:
None, booleans, integers, strings, lists, and string-keyed dictionaries. -/
inductive PyValue : Type where
  | none : PyValue
  | bool (b : Bool) : PyValue
  | int (n : Int) : PyValue
  | str (s : String) : PyValue
  | list (xs : List PyValue) : PyValue
  | dict (xs : List (String × PyValue)) : PyValue

/-- Exceptions that Python code in the validator can raise: ValueError (caught
by verify_type_and_range around int()) and TypeError (never caught). -/
inductive PyExc : Type where
  | valueError (msg : String) : PyExc
  | typeError (msg : String) : PyExc

/-- A Python dict with string keys, kept in insertion order. -/
abbrev PyDict := List (String × PyValue)

/-- Keys of a dict, in order, as iterated by a Python for-loop over the dict. -/
def pyKeys (d : PyDict) : List String := d.map Prod.fst

/-- Subscript access d[k]; callers in the validator only use it under a guard
that the key is present, so a missing key defaults to None in the model. -/
def lookupD (d : PyDict) (k : String) : PyValue :=
  match d.find? (fun kv => kv.1 == k) with
  | some kv => kv.2
  | Option.none => PyValue.none

/-- Python set difference on string key lists (set(xs) - set(ys)), keeping the
first occurrence of each element; real CPython set order is hash-dependent and
the model fixes it to first-appearance order. -/
def setDiff (xs ys : List String) : List String :=
  (xs.filter (fun x => !(ys.contains x))).eraseDups

/-- Python set equality set(xs) == set(ys) on string lists. -/
def sameStrSet (xs ys : List String) : Bool :=
  xs.all (fun x => ys.contains x) && ys.all (fun y => xs.contains y)

/-- Display of a Python set of strings inside an f-string. CPython orders set
elements by hash; the model prints them in list order, and prints the empty
set as Python does. -/
def pySetRepr (xs : List String) : String :=
  if xs.isEmpty then "set()"
  else "\x7b" ++ String.intercalate ", " (xs.map (fun s => "'" ++ s ++ "'")) ++ "\x7d"

mutual

/-- Model of Python repr() on the value universe (string escaping inside
reprs is not modelled; the validator never feeds it strings needing escapes). -/
def pyRepr : PyValue → String
  | .none => "None"
  | .bool true => "True"
  | .bool false => "False"
  | .int n => toString n
  | .str s => "'" ++ s ++ "'"
  | .list xs => "[" ++ String.intercalate ", " (pyReprList xs) ++ "]"
  | .dict xs => "\x7b" ++ String.intercalate ", " (pyReprDict xs) ++ "\x7d"

/-- Reprs of the elements of a list value. -/
def pyReprList : List PyValue → List String
  | [] => []
  | v :: rest => pyRepr v :: pyReprList rest

/-- Reprs of the entries of a dict value. -/
def pyReprDict : List (String × PyValue) → List String
  | [] => []
  | (k, v) :: rest => ("'" ++ k ++ "': " ++ pyRepr v) :: pyReprDict rest

end

/-- Model of Python str() as used by f-string interpolation of a value. -/
def pyStr : PyValue → String
  | .str s => s
  | v => pyRepr v

/-- Whitespace characters stripped by Python int() around a numeric string. -/
def isPySpace (c : Char) : Bool :=
  c == ' ' || c == '\t' || c == '\n' || c == '\r' || c == '\x0b' || c == '\x0c'

/-- Numeric value of a decimal digit character. -/
def charDigit (c : Char) : Nat := c.toNat - 48

/-- Value of the digits of a Python int literal after its first digit: a single
underscore may stand between two digits, nowhere else. -/
def pyDigitsVal : List Char → Nat → Option Nat
  | [], acc => some acc
  | '_' :: c :: rest, acc =>
      if c.isDigit then pyDigitsVal rest (acc * 10 + charDigit c) else Option.none
  | ['_'], _ => Option.none
  | c :: rest, acc =>
      if c.isDigit then pyDigitsVal rest (acc * 10 + charDigit c) else Option.none

/-- Value of a nonempty digit sequence of a Python int literal. -/
def pyParseDigits : List Char → Option Nat
  | [] => Option.none
  | c :: rest => if c.isDigit then pyDigitsVal rest (charDigit c) else Option.none

/-- Model of Python int(string) literal parsing: strip surrounding whitespace,
allow one optional sign, then decimal digits with optional single underscores
between digits (non-ASCII digit forms are not modelled). -/
def pyParseInt (s : String) : Option Int :=
  let cs := ((s.toList.dropWhile isPySpace).reverse.dropWhile isPySpace).reverse
  match cs with
  | '+' :: rest => (pyParseDigits rest).map (fun n => (n : Int))
  | '-' :: rest => (pyParseDigits rest).map (fun n => -(n : Int))
  | rest => (pyParseDigits rest).map (fun n => (n : Int))

/-- Model of the Python builtin int() applied to a value: ints pass through,
bools coerce to 0 or 1 (bool is a subtype of int), strings are parsed raising
ValueError on failure, and None, lists and dicts raise TypeError. -/
def pyInt : PyValue → Except PyExc Int
  | .int n => .ok n
  | .bool b => .ok (if b then 1 else 0)
  | .str s =>
      match pyParseInt s with
      | some n => .ok n
      | Option.none =>
          .error (.valueError ("invalid literal for int() with base 10: '" ++ s ++ "'"))
  | .none =>
      .error (.typeError
        "int() argument must be a string, a bytes-like object or a real number, not 'NoneType'")
  | .list _ =>
      .error (.typeError
        "int() argument must be a string, a bytes-like object or a real number, not 'list'")
  | .dict _ =>
      .error (.typeError
        "int() argument must be a string, a bytes-like object or a real number, not 'dict'")

/-- Matcher for the hour group of TIME_REGEX: [01][0-9] or 2[0-3]. -/
def hourOk (a b : Char) : Bool :=
  ((a == '0' || a == '1') && b.isDigit) || (a == '2' && b.isDigit && decide (b.toNat ≤ 51))

/-- Matcher for the minute and second groups of TIME_REGEX: [0-5][0-9]. -/
def minuteOk (a b : Char) : Bool :=
  a.isDigit && decide (a.toNat ≤ 53) && b.isDigit

/-- Model of re.match against the default VITE_TIME_REGEX
([01][0-9]|2[0-3]):([0-5][0-9]) with optional (:[0-5][0-9]) seconds, anchored
at both ends. -/
def timeMatch (s : String) : Bool :=
  match s.toList with
  | [h1, h2, ':', m1, m2] => hourOk h1 h2 && minuteOk m1 m2
  | [h1, h2, ':', m1, m2, ':', s1, s2] => hourOk h1 h2 && minuteOk m1 m2 && minuteOk s1 s2
  | _ => false

/-- Hexadecimal digit test for the color regular expression. -/
def isHexChar (c : Char) : Bool :=
  c.isDigit || (decide (65 ≤ c.toNat) && decide (c.toNat ≤ 70))
    || (decide (97 ≤ c.toNat) && decide (c.toNat ≤ 102))

/-- Model of re.match against the default VITE_COLOR_REGEX: a hash sign
followed by exactly 3 or 6 hex digits. -/
def colorMatch (s : String) : Bool :=
  match s.toList with
  | '#' :: rest => (rest.length == 3 || rest.length == 6) && rest.all isHexChar
  | _ => false

/-- Default value of VITE_MIN_WATER_TEMP. -/
def MIN_WATER_TEMP : Int := 49

/-- Default value of VITE_MAX_WATER_TEMP. -/
def MAX_WATER_TEMP : Int := 60

/-- Default value of VITE_MIN_AC_TEMP. -/
def MIN_AC_TEMP : Int := 16

/-- Default value of VITE_MAX_AC_TEMP. -/
def MAX_AC_TEMP : Int := 30

/-- Default value of VITE_MIN_BRIGHTNESS. -/
def MIN_BRIGHTNESS : Int := 0

/-- Default value of VITE_MAX_BRIGHTNESS. -/
def MAX_BRIGHTNESS : Int := 100

/-- Default value of MIN_POSITION. -/
def MIN_POSITION : Int := 0

/-- Default value of MAX_POSITION. -/
def MAX_POSITION : Int := 100

/-- Default value of MIN_BATTERY. -/
def MIN_BATTERY : Int := 0

/-- Default value of MAX_BATTERY. -/
def MAX_BATTERY : Int := 100

/-- Default known device types. -/
def DEVICE_TYPES : List String :=
  ["light", "water_heater", "air_conditioner", "door_lock", "curtain"]

/-- Default canonical top-level fields of a new device record. -/
def DEVICE_PARAMETERS : List String :=
  ["id", "type", "room", "name", "status", "parameters"]

/-- Default allowed parameter keys for a water heater. -/
def WATER_HEATER_PARAMETERS : List String :=
  ["temperature", "target_temperature", "is_heating", "timer_enabled",
   "scheduled_on", "scheduled_off"]

/-- Default allowed parameter keys for a light. -/
def LIGHT_PARAMETERS : List String :=
  ["brightness", "color", "is_dimmable", "dynamic_color"]

/-- Default allowed parameter keys for an air conditioner. -/
def AC_PARAMETERS : List String := ["temperature", "mode", "fan_speed", "swing"]

/-- Default allowed air conditioner modes. -/
def AC_MODES : List String := ["cool", "heat", "fan"]

/-- Default allowed air conditioner fan settings. -/
def AC_FAN_SETTINGS : List String := ["off", "low", "medium", "high"]

/-- Default allowed air conditioner swing modes. -/
def AC_SWING_MODES : List String := ["off", "on", "auto"]

/-- Default allowed parameter keys for a door lock. -/
def LOCK_PARAMETERS : List String := ["auto_lock_enabled", "battery_level"]

/-- Default allowed parameter keys for a curtain. -/
def CURTAIN_PARAMETERS : List String := ["position"]

/-- The Python type objects passed as the cls argument of the checker. -/
inductive PyType : Type where
  | int : PyType
  | str : PyType
  | bool : PyType
  | dict : PyType

/-- Display of a type object inside an f-string, as in must-be-a messages. -/
def pyTypeRepr : PyType → String
  | .int => "<class 'int'>"
  | .str => "<class 'str'>"
  | .bool => "<class 'bool'>"
  | .dict => "<class 'dict'>"

/-- Display of type(value) for the runtime type of a value. -/
def pyTypeOfRepr : PyValue → String
  | .none => "<class 'NoneType'>"
  | .bool _ => "<class 'bool'>"
  | .int _ => "<class 'int'>"
  | .str _ => "<class 'str'>"
  | .list _ => "<class 'list'>"
  | .dict _ => "<class 'dict'>"

/-- Exact runtime type test, modelling type(value) is cls. -/
def typeIs (v : PyValue) (cls : PyType) : Bool :=
  match v, cls with
  | .int _, .int => true
  | .str _, .str => true
  | .bool _, .bool => true
  | .dict _, .dict => true
  | _, _ => false

/-- The value_range argument of verify_type_and_range: None, a pair of ints, a
set of strings, or a plain string such as time or color. -/
inductive VRange : Type where
  | none : VRange
  | tup (lo hi : Int) : VRange
  | strset (xs : List String) : VRange
  | strv (s : String) : VRange

/-- Model of verify_type_and_range (validators.py lines 86-138). With cls int
the value is coerced by int(); only ValueError is caught and turned into the
numeric-string message, so a TypeError from int() (None, list, dict values)
escapes. With any other cls an exact runtime type test runs first, and string
constraints (membership set, time, color) are then applied. Supplying a
non-tuple range together with cls int would fail Python tuple unpacking or the
int-to-string comparison, modelled as a TypeError. -/
def verify_type_and_range (value : PyValue) (name : String) (cls : PyType)
    (value_range : VRange) : Except PyExc (Bool × Option String) :=
  match cls with
  | .int =>
    match pyInt value with
    | .error (.valueError _) =>
        .ok (false, some (name ++ " must be a numeric string, got " ++ pyStr value ++ " instead."))
    | .error e => .error e
    | .ok v =>
        match value_range with
        | .none => .ok (true, Option.none)
        | .tup minimum maximum =>
            if v > maximum || v < minimum then
              .ok (false, some (name ++ " must be between " ++ toString minimum ++ " and " ++
                toString maximum ++ ", got " ++ toString v ++ " instead."))
            else .ok (true, Option.none)
        | _ => .error (.typeError "cannot unpack value_range into minimum, maximum")
  | _ =>
    if !(typeIs value cls) then
      .ok (false, some (name ++ " must be a " ++ pyTypeRepr cls ++ ", got " ++
        pyTypeOfRepr value ++ " instead."))
    else
      match cls, value, value_range with
      | .str, .str s, .strset xs =>
          if !(xs.contains s) then
            .ok (false, some ("'" ++ s ++ "' is not a valid value for " ++ name ++
              ". Must be one of " ++ pySetRepr xs ++ "."))
          else .ok (true, Option.none)
      | .str, .str s, .strv r =>
          if r == "time" then
            .ok (timeMatch s,
              if timeMatch s then Option.none
              else some ("'" ++ s ++ "' is not a valid ISO format time string."))
          else if r == "color" then
            .ok (colorMatch s,
              if colorMatch s then Option.none
              else some ("'" ++ s ++ "' is not a valid hex color string."))
          else .ok (true, Option.none)
      | _, _, _ => .ok (true, Option.none)

/-- Error list contributed by one check result, modelling the idiom
success, reason = verify_type_and_range(...); if not success:
errors.append(reason). A success contributes nothing; a failure appends the
reason (always a string on the failure paths). -/
def reasonList : Bool × Option String → List String
  | (true, _) => []
  | (false, r) => [r.getD "None"]

/-- Runs one primitive check and returns the errors it appends, propagating an
uncaught exception. -/
def checkToErrors (value : PyValue) (name : String) (cls : PyType) (vr : VRange) :
    Except PyExc (List String) :=
  match verify_type_and_range value name cls vr with
  | .error e => .error e
  | .ok r => .ok (reasonList r)

/-- The per-update read-only parameter message (with trailing period), as built
inside the parameters loops. -/
def readOnlyParamError (k : String) : String :=
  "Cannot update read-only parameter '" ++ k ++ "'."

/-- The top-level read-only field message (no trailing period), as built for id
and type in update mode. -/
def readOnlyTopLevelError (k : String) : String :=
  "Cannot update read-only parameter '" ++ k ++ "'"

/-- The combined shape error for a new-device record whose key set is not the
canonical one, naming the extra keys, the missing keys and the required set
(validators.py lines 159-161). -/
def newDeviceShapeError (ks : List String) : String :=
  "Incorrect field(s) in new device: " ++ pySetRepr (setDiff ks DEVICE_PARAMETERS) ++
  ", missing field(s) in new device: " ++ pySetRepr (setDiff DEVICE_PARAMETERS ks) ++
  ", must be exactly these fields: " ++ pySetRepr DEVICE_PARAMETERS

/-- The unknown device type message (validators.py line 177). -/
def incorrectDeviceTypeError (dt : PyValue) : String :=
  "Incorrect device type " ++ pyStr dt ++ ", must be one of " ++ pySetRepr DEVICE_TYPES ++ "."

/-- The combined disallowed-parameters message for one device type. -/
def disallowedParamsError (display : String) (left_over allowed : List String) : String :=
  "Disallowed parameters for " ++ display ++ " " ++ pySetRepr left_over ++
  ", allowed parameters: " ++ pySetRepr allowed

/-- Per-key rule dispatch for door_lock parameters (validators.py lines 231-253):
auto_lock_enabled is a bool check on creation and a read-only error on update;
battery_level is an int range check. -/
def doorLockKeyCheck (new_device : Bool) (key : String) (value : PyValue) :
    Except PyExc (List String) :=
  if key == "auto_lock_enabled" then
    if new_device then checkToErrors value "'auto_lock_enabled'" .bool VRange.none
    else .ok [readOnlyParamError key]
  else if key == "battery_level" then
    checkToErrors value "'battery_level'" .int (.tup MIN_BATTERY MAX_BATTERY)
  else .ok []

/-- Per-key rule dispatch for curtain parameters (validators.py lines 262-271). -/
def curtainKeyCheck (key : String) (value : PyValue) : Except PyExc (List String) :=
  if key == "position" then
    checkToErrors value "'position'" .int (.tup MIN_POSITION MAX_POSITION)
  else .ok []

/-- Per-key rule dispatch for air_conditioner parameters (validators.py lines
280-316). Note the third branch tests the key name fan, not fan_speed. -/
def acKeyCheck (key : String) (value : PyValue) : Except PyExc (List String) :=
  if key == "temperature" then
    checkToErrors value "'temperature'" .int (.tup MIN_AC_TEMP MAX_AC_TEMP)
  else if key == "mode" then
    checkToErrors value "'mode'" .str (.strset AC_MODES)
  else if key == "fan" then
    checkToErrors value "'fan'" .str (.strset AC_FAN_SETTINGS)
  else if key == "swing" then
    checkToErrors value "'swing'" .str (.strset AC_SWING_MODES)
  else .ok []

/-- Per-key rule dispatch for water_heater parameters (validators.py lines
325-376). -/
def waterHeaterKeyCheck (key : String) (value : PyValue) : Except PyExc (List String) :=
  if key == "temperature" then
    checkToErrors value "'temperature'" .int VRange.none
  else if key == "target_temperature" then
    checkToErrors value "'target_temperature'" .int (.tup MIN_WATER_TEMP MAX_WATER_TEMP)
  else if key == "is_heating" then
    checkToErrors value "'is_heating'" .bool VRange.none
  else if key == "timer_enabled" then
    checkToErrors value "'timer_enabled'" .bool VRange.none
  else if key == "scheduled_on" then
    checkToErrors value "'scheduled_on'" .str (.strv "time")
  else if key == "scheduled_off" then
    checkToErrors value "'scheduled_off'" .str (.strv "time")
  else .ok []

/-- Per-key rule dispatch for light parameters (validators.py lines 385-429):
is_dimmable and dynamic_color are bool checks on creation and read-only errors
on update. -/
def lightKeyCheck (new_device : Bool) (key : String) (value : PyValue) :
    Except PyExc (List String) :=
  if key == "brightness" then
    checkToErrors value "'brightness'" .int (.tup MIN_BRIGHTNESS MAX_BRIGHTNESS)
  else if key == "color" then
    checkToErrors value "'color'" .str (.strv "color")
  else if key == "is_dimmable" then
    if new_device then checkToErrors value "'is_dimmable'" .bool VRange.none
    else .ok [readOnlyParamError key]
  else if key == "dynamic_color" then
    if new_device then checkToErrors value "'dynamic_color'" .bool VRange.none
    else .ok [readOnlyParamError key]
  else .ok []

/-- Sequential accumulation of per-key check results over the items of a
parameters dict, in insertion order, propagating any exception. -/
def keyCheckAll (check : String → PyValue → Except PyExc (List String)) :
    PyDict → Except PyExc (List String)
  | [] => .ok []
  | (k, v) :: rest =>
      match check k v with
      | .error e => .error e
      | .ok es =>
          match keyCheckAll check rest with
          | .error e => .error e
          | .ok more => .ok (es ++ more)

/-- Handling of the parameters field for one device type (validators.py lines
211-429): a dict type check whose failure contributes just its message, then
the disallowed-key filter whose failure contributes one combined message and
skips the per-key loop, and otherwise the per-key loop. The device type match
has no default case. -/
def parametersErrors (new_device : Bool) (dt : String) (v : PyValue) :
    Except PyExc (List String) :=
  match verify_type_and_range v "'parameters'" .dict VRange.none with
  | .error e => .error e
  | .ok r =>
    if !r.1 then .ok (reasonList r)
    else
      match v with
      | .dict ps =>
        if dt == "door_lock" then
          let left_over := setDiff (pyKeys ps) LOCK_PARAMETERS
          if !left_over.isEmpty then
            .ok [disallowedParamsError "door lock" left_over LOCK_PARAMETERS]
          else keyCheckAll (doorLockKeyCheck new_device) ps
        else if dt == "curtain" then
          let left_over := setDiff (pyKeys ps) CURTAIN_PARAMETERS
          if !left_over.isEmpty then
            .ok [disallowedParamsError "curtain" left_over CURTAIN_PARAMETERS]
          else keyCheckAll curtainKeyCheck ps
        else if dt == "air_conditioner" then
          let left_over := setDiff (pyKeys ps) AC_PARAMETERS
          if !left_over.isEmpty then
            .ok [disallowedParamsError "air conditioner" left_over AC_PARAMETERS]
          else keyCheckAll acKeyCheck ps
        else if dt == "water_heater" then
          let left_over := setDiff (pyKeys ps) WATER_HEATER_PARAMETERS
          if !left_over.isEmpty then
            .ok [disallowedParamsError "water heater" left_over WATER_HEATER_PARAMETERS]
          else keyCheckAll waterHeaterKeyCheck ps
        else if dt == "light" then
          let left_over := setDiff (pyKeys ps) LIGHT_PARAMETERS
          if !left_over.isEmpty then
            .ok [disallowedParamsError "light" left_over LIGHT_PARAMETERS]
          else keyCheckAll (lightKeyCheck new_device) ps
        else .ok []
      | _ => .ok []

/-- Handling of the status field for one device type (validators.py lines
181-210): an enum membership check against the type-specific status set, with
light, water_heater and air_conditioner sharing the default on-off case. -/
def statusErrors (dt : String) (v : PyValue) : Except PyExc (List String) :=
  if dt == "door_lock" then
    checkToErrors v "'status'" .str (.strset ["unlocked", "locked"])
  else if dt == "curtain" then
    checkToErrors v "'status'" .str (.strset ["open", "closed"])
  else
    checkToErrors v "'status'" .str (.strset ["on", "off"])

/-- Processing of one top-level field in the main loop (validators.py lines
180-429): only the keys status and parameters are inspected, each guarded by a
membership test of the device type. -/
def processField (d : PyDict) (new_device : Bool) (dt : String) (field : String) :
    Except PyExc (List String) :=
  match (if field == "status" && DEVICE_TYPES.contains dt
         then statusErrors dt (lookupD d "status") else .ok []) with
  | .error e => .error e
  | .ok sErrs =>
      match (if field == "parameters" && DEVICE_TYPES.contains dt
             then parametersErrors new_device dt (lookupD d "parameters") else .ok []) with
      | .error e => .error e
      | .ok pErrs => .ok (sErrs ++ pErrs)

/-- The main loop for field in device_data (validators.py line 180), iterating
the record's keys in order and accumulating each field's errors. -/
def processFields (d : PyDict) (new_device : Bool) (dt : String) :
    List String → Except PyExc (List String)
  | [] => .ok []
  | f :: rest =>
      match processField d new_device dt f with
      | .error e => .error e
      | .ok es =>
          match processFields d new_device dt rest with
          | .error e => .error e
          | .ok more => .ok (es ++ more)

/-- The membership test device_type not in DEVICE_TYPES (validators.py line
176). In new-device mode the tested value is the record's own type field, so
it can be any value: an unhashable list or dict makes the test itself raise
TypeError; any other non-member value selects the error branch. Returns the
device type string on success. -/
def resolveDeviceType : PyValue → Except PyExc (Option String)
  | .str s => if DEVICE_TYPES.contains s then .ok (some s) else .ok Option.none
  | .list _ => .error (.typeError "unhashable type: 'list'")
  | .dict _ => .error (.typeError "unhashable type: 'dict'")
  | _ => .ok Option.none

/-- The tail of validate_device_data from the device type check onward
(validators.py lines 176-432): reject unknown device types with a single
error, run the main loop, and return ok exactly when no error accumulated. -/
def validateTyped (device_data : PyDict) (new_device : Bool) (dt : PyValue) :
    Except PyExc (Bool × List String) :=
  match resolveDeviceType dt with
  | .error e => .error e
  | .ok Option.none => .ok (false, [incorrectDeviceTypeError dt])
  | .ok (some s) =>
      match processFields device_data new_device s (pyKeys device_data) with
      | .error e => .error e
      | .ok errors => if errors.isEmpty then .ok (true, []) else .ok (false, errors)

/-- Model of validate_device_data (validators.py lines 141-432). new_device is
the keyword argument (default False) and device_type the caller-supplied
string (default empty). In new-device mode an exact key-set mismatch returns
one combined shape error at once and otherwise the type is read from the
record; in update mode a present id or type field each append a read-only
error and, if any fired, the call returns with just those. -/
def validate_device_data (device_data : PyDict) (new_device : Bool)
    (device_type : String) : Except PyExc (Bool × List String) :=
  if new_device then
    if !(sameStrSet (pyKeys device_data) DEVICE_PARAMETERS) then
      .ok (false, [newDeviceShapeError (pyKeys device_data)])
    else
      validateTyped device_data new_device (lookupD device_data "type")
  else
    let errors :=
      (if (pyKeys device_data).contains "id" then [readOnlyTopLevelError "id"] else []) ++
      (if (pyKeys device_data).contains "type" then [readOnlyTopLevelError "type"] else [])
    if !errors.isEmpty then .ok (false, errors)
    else validateTyped device_data new_device (.str device_type)

/-- The allowed-parameter set the per-type match cases subtract from the keys
of a parameters dict. -/
def allowedParams : String → List String
  | "door_lock" => LOCK_PARAMETERS
  | "curtain" => CURTAIN_PARAMETERS
  | "air_conditioner" => AC_PARAMETERS
  | "water_heater" => WATER_HEATER_PARAMETERS
  | "light" => LIGHT_PARAMETERS
  | _ => []

/-- The display name each per-type case writes into its disallowed-parameters
message. -/
def typeDisplay : String → String
  | "door_lock" => "door lock"
  | "curtain" => "curtain"
  | "air_conditioner" => "air conditioner"
  | "water_heater" => "water heater"
  | "light" => "light"
  | _ => ""

theorem ok_ite (c : Prop) [Decidable c] (a b : Bool × Option String) :
    (if c then (Except.ok a : Except PyExc (Bool × Option String)) else .ok b) =
      .ok (if c then a else b) := by
  split <;> rfl

theorem validate_params_only (dt : String) (v : PyValue) (es : List String)
    (h1 : DEVICE_TYPES.contains dt = true)
    (hp : parametersErrors false dt v = .ok es) :
    validate_device_data [("parameters", v)] false dt =
      (if es.isEmpty then .ok (true, []) else .ok (false, es)) := by
  have h1m : dt ∈ DEVICE_TYPES := by simpa using h1
  simp [validate_device_data, validateTyped, resolveDeviceType, processFields,
    processField, lookupD, pyKeys, h1m, hp, List.isEmpty_iff]

/-- C4: an integer value checked with expected type int against an inclusive
range (min, max) succeeds exactly when min ≤ value ≤ max and otherwise fails
with the between message naming the bounds and the value. -/
theorem c4_int_range_check (n : Int) (name : String) (lo hi : Int) :
    verify_type_and_range (.int n) name .int (.tup lo hi) =
      .ok (if n > hi || n < lo then
            (false, some (name ++ " must be between " ++ toString lo ++ " and " ++
              toString hi ++ ", got " ++ toString n ++ " instead."))
          else (true, Option.none)) := by
  rw [← ok_ite]
  rfl

/-- C10: a boolean value checked with expected type int is coerced (True to 1,
False to 0) and never rejected with a type-mismatch error: the result is
success when the coerced value is in range and the between message otherwise,
and without a range constraint it always succeeds; at the validator level a
boolean battery_level passes the door lock int check. -/
theorem c10_bool_coerced_int (b : Bool) (name : String) (lo hi : Int) :
    (verify_type_and_range (.bool b) name .int (.tup lo hi) =
      .ok (if (if b then (1 : Int) else 0) > hi || (if b then (1 : Int) else 0) < lo then
            (false, some (name ++ " must be between " ++ toString lo ++ " and " ++
              toString hi ++ ", got " ++ toString (if b then (1 : Int) else 0) ++ " instead."))
          else (true, Option.none)))
    ∧ verify_type_and_range (.bool b) name .int VRange.none = .ok (true, Option.none)
    ∧ validate_device_data [("parameters",
        PyValue.dict [("battery_level", PyValue.bool b)])] false "door_lock" =
      .ok (true, []) := by
  refine ⟨?_, ?_, ?_⟩
  · rw [← ok_ite]
    rfl
  · cases b <;> rfl
  · cases b <;> rfl

/-- C2: the key fan_speed is in the allowed air conditioner parameter set, yet
the per-key dispatch (which tests the key fan) never checks its value: the
per-key check of fan_speed contributes no error whatever the value, and an
update carrying only a fan_speed parameter validates cleanly for any value. -/
theorem c2_fan_speed_never_checked :
    AC_PARAMETERS.contains "fan_speed" = true
    ∧ AC_PARAMETERS.contains "fan" = false
    ∧ (∀ v : PyValue, acKeyCheck "fan_speed" v = .ok [])
    ∧ (∀ v : PyValue,
        validate_device_data [("parameters", PyValue.dict [("fan_speed", v)])]
          false "air_conditioner" = .ok (true, [])) := by
  refine ⟨rfl, rfl, fun v => rfl, fun v => rfl⟩

/-- C8: in update mode, any value supplied for the read-only parameters
is_dimmable or dynamic_color of a light, or auto_lock_enabled of a door lock,
yields exactly the read-only message and never a type or range error, both at
the per-key dispatch and through validate_device_data. -/
theorem c8_read_only_parameters_update (v : PyValue) :
    lightKeyCheck false "is_dimmable" v = .ok [readOnlyParamError "is_dimmable"]
    ∧ lightKeyCheck false "dynamic_color" v = .ok [readOnlyParamError "dynamic_color"]
    ∧ doorLockKeyCheck false "auto_lock_enabled" v = .ok [readOnlyParamError "auto_lock_enabled"]
    ∧ validate_device_data [("parameters", PyValue.dict [("is_dimmable", v)])] false "light" =
        .ok (false, [readOnlyParamError "is_dimmable"])
    ∧ validate_device_data [("parameters", PyValue.dict [("dynamic_color", v)])] false "light" =
        .ok (false, [readOnlyParamError "dynamic_color"])
    ∧ validate_device_data [("parameters", PyValue.dict [("auto_lock_enabled", v)])] false "door_lock" =
        .ok (false, [readOnlyParamError "auto_lock_enabled"]) := by
  refine ⟨rfl, rfl, rfl, rfl, rfl, rfl⟩

theorem processFields_skip (d : PyDict) (nd : Bool) (dt : String) (fs : List String)
    (h : ∀ f ∈ fs, f ≠ "status" ∧ f ≠ "parameters") :
    processFields d nd dt fs = .ok [] := by
  induction fs with
  | nil => rfl
  | cons f rest ih =>
    obtain ⟨h1, h2⟩ := h f (by simp)
    have hf : processField d nd dt f = .ok [] := by
      simp [processField, h1, h2]
    rw [processFields, hf, ih (fun g hg => h g (by simp [hg]))]
    rfl

/-- C5: in new-device mode, a record whose top-level key set differs from the
canonical one returns at once with exactly the one combined error naming the
extra keys, the missing keys and the required set, and no other check runs. -/
theorem c5_new_device_shape_error (d : PyDict) (dt : String)
    (h : sameStrSet (pyKeys d) DEVICE_PARAMETERS = false) :
    validate_device_data d true dt = .ok (false, [newDeviceShapeError (pyKeys d)]) := by
  simp [validate_device_data, h]

theorem c5_new_device_shape_error_witness :
    validate_device_data [("id", PyValue.none)] true "" =
      .ok (false, [newDeviceShapeError (pyKeys [("id", PyValue.none)])]) :=
  c5_new_device_shape_error [("id", PyValue.none)] "" (by decide)

/-- C6: in update mode a present id key and a present type key each add their
own read-only error; both present yields exactly those two errors and the call
returns immediately with only them. -/
theorem c6_update_read_only_top_level (d : PyDict) (dt : String) :
    ((pyKeys d).contains "id" = true → (pyKeys d).contains "type" = true →
      validate_device_data d false dt =
        .ok (false, [readOnlyTopLevelError "id", readOnlyTopLevelError "type"]))
    ∧ ((pyKeys d).contains "id" = true → (pyKeys d).contains "type" = false →
      validate_device_data d false dt = .ok (false, [readOnlyTopLevelError "id"]))
    ∧ ((pyKeys d).contains "id" = false → (pyKeys d).contains "type" = true →
      validate_device_data d false dt = .ok (false, [readOnlyTopLevelError "type"])) := by
  refine ⟨fun h1 h2 => ?_, fun h1 h2 => ?_, fun h1 h2 => ?_⟩
  · have h1m : "id" ∈ pyKeys d := by simpa using h1
    have h2m : "type" ∈ pyKeys d := by simpa using h2
    simp [validate_device_data, h1m, h2m]
  · have h1m : "id" ∈ pyKeys d := by simpa using h1
    have h2m : "type" ∉ pyKeys d := by simpa using h2
    simp [validate_device_data, h1m, h2m]
  · have h1m : "id" ∉ pyKeys d := by simpa using h1
    have h2m : "type" ∈ pyKeys d := by simpa using h2
    simp [validate_device_data, h1m, h2m]

theorem c6_update_read_only_top_level_witness :
    validate_device_data [("id", PyValue.none), ("type", PyValue.none)] false "light" =
      .ok (false, [readOnlyTopLevelError "id", readOnlyTopLevelError "type"]) :=
  (c6_update_read_only_top_level [("id", PyValue.none), ("type", PyValue.none)] "light").1
    (by decide) (by decide)

/-- C9: in update mode with a known device type, a record containing none of
the keys id, type, status or parameters validates to (true, []) whatever its
other fields hold: they pass through uninspected. -/
theorem c9_update_passthrough (d : PyDict) (dt : String)
    (h1 : DEVICE_TYPES.contains dt = true)
    (h2 : "id" ∉ pyKeys d) (h3 : "type" ∉ pyKeys d)
    (h4 : "status" ∉ pyKeys d) (h5 : "parameters" ∉ pyKeys d) :
    validate_device_data d false dt = .ok (true, []) := by
  have h1m : dt ∈ DEVICE_TYPES := by simpa using h1
  have hfields : processFields d false dt (pyKeys d) = .ok [] :=
    processFields_skip d false dt (pyKeys d)
      (fun f hf => ⟨fun e => h4 (e ▸ hf), fun e => h5 (e ▸ hf)⟩)
  simp [validate_device_data, validateTyped, resolveDeviceType, h1m, h2, h3, hfields]

theorem c9_update_passthrough_witness :
    validate_device_data [("room", PyValue.str "kitchen"), ("name", PyValue.int 3)]
      false "light" = .ok (true, []) :=
  c9_update_passthrough [("room", PyValue.str "kitchen"), ("name", PyValue.int 3)] "light"
    (by decide) (by decide) (by decide) (by decide) (by decide)

theorem validateTyped_flag (d : PyDict) (nd : Bool) (dt : PyValue) :
    ∀ ok errs, validateTyped d nd dt = .ok (ok, errs) → (ok = true ↔ errs = []) := by
  intro ok errs h
  unfold validateTyped at h
  split at h
  · simp at h
  · simp only [Except.ok.injEq, Prod.mk.injEq] at h
    obtain ⟨h1, h2⟩ := h
    subst h1; subst h2
    simp
  · split at h
    · simp at h
    · split at h
      · simp only [Except.ok.injEq, Prod.mk.injEq] at h
        obtain ⟨h1, h2⟩ := h
        subst h1; subst h2
        simp
      · rename_i he
        simp only [Except.ok.injEq, Prod.mk.injEq] at h
        obtain ⟨h1, h2⟩ := h
        subst h1; subst h2
        simp only [List.isEmpty_iff] at he
        simp [he]

/-- C3: whenever validate_device_data returns a result at all, the success
flag is true exactly when the returned error list is empty. -/
theorem c3_success_iff_errors_empty (d : PyDict) (nd : Bool) (dt : String)
    (ok : Bool) (errs : List String)
    (h : validate_device_data d nd dt = .ok (ok, errs)) : ok = true ↔ errs = [] := by
  unfold validate_device_data at h
  cases nd with
  | true =>
    by_cases hs : sameStrSet (pyKeys d) DEVICE_PARAMETERS = true
    · simp only [hs] at h
      simp at h
      exact validateTyped_flag d true (lookupD d "type") ok errs h
    · have hs' : sameStrSet (pyKeys d) DEVICE_PARAMETERS = false :=
        Bool.eq_false_iff.mpr hs
      simp only [hs'] at h
      simp at h
      obtain ⟨h1, h2⟩ := h
      subst h1; subst h2
      simp
  | false =>
    by_cases hid : "id" ∈ pyKeys d <;> by_cases hty : "type" ∈ pyKeys d
    · simp [hid, hty] at h
      obtain ⟨h1, h2⟩ := h
      subst h1; subst h2
      simp
    · simp [hid, hty] at h
      obtain ⟨h1, h2⟩ := h
      subst h1; subst h2
      simp
    · simp [hid, hty] at h
      obtain ⟨h1, h2⟩ := h
      subst h1; subst h2
      simp
    · simp [hid, hty] at h
      exact validateTyped_flag d false (.str dt) ok errs h

theorem c3_success_iff_errors_empty_witness :
    (true = true) ↔ (([] : List String) = []) :=
  c3_success_iff_errors_empty [] false "light" true [] rfl

/-- C7: a parameters dict carrying any key outside the device type's allowed
set contributes exactly the one combined disallowed-parameters error (naming
the disallowed set and the allowed set) and no per-key check runs on any of
its entries, both at the parameters-handling level (for either mode) and
through validate_device_data. -/
theorem c7_disallowed_parameters_fail_fast (nd : Bool) (dt : String) (ps : PyDict)
    (h1 : DEVICE_TYPES.contains dt = true)
    (h2 : setDiff (pyKeys ps) (allowedParams dt) ≠ []) :
    parametersErrors nd dt (.dict ps) =
      .ok [disallowedParamsError (typeDisplay dt)
        (setDiff (pyKeys ps) (allowedParams dt)) (allowedParams dt)]
    ∧ validate_device_data [("parameters", PyValue.dict ps)] false dt =
      .ok (false, [disallowedParamsError (typeDisplay dt)
        (setDiff (pyKeys ps) (allowedParams dt)) (allowedParams dt)]) := by
  have hdt : dt = "light" ∨ dt = "water_heater" ∨ dt = "air_conditioner" ∨
      dt = "door_lock" ∨ dt = "curtain" := by
    have h1m : dt ∈ DEVICE_TYPES := by simpa using h1
    simpa [DEVICE_TYPES] using h1m
  have hpe : ∀ m : Bool, parametersErrors m dt (.dict ps) =
      .ok [disallowedParamsError (typeDisplay dt)
        (setDiff (pyKeys ps) (allowedParams dt)) (allowedParams dt)] := by
    intro m
    rcases hdt with h | h | h | h | h <;> subst h <;>
      simp_all [parametersErrors, verify_type_and_range, typeIs, reasonList,
        allowedParams, typeDisplay, List.isEmpty_iff]
  refine ⟨hpe nd, ?_⟩
  have hv := validate_params_only dt (.dict ps) _ h1 (hpe false)
  simpa using hv

theorem c7_disallowed_parameters_fail_fast_witness :
    parametersErrors false "light" (.dict [("zap", PyValue.none)]) =
      .ok [disallowedParamsError (typeDisplay "light")
        (setDiff (pyKeys [("zap", PyValue.none)]) (allowedParams "light"))
        (allowedParams "light")]
    ∧ validate_device_data [("parameters", PyValue.dict [("zap", PyValue.none)])]
        false "light" =
      .ok (false, [disallowedParamsError (typeDisplay "light")
        (setDiff (pyKeys [("zap", PyValue.none)]) (allowedParams "light"))
        (allowedParams "light")]) :=
  c7_disallowed_parameters_fail_fast false "light" [("zap", PyValue.none)]
    (by decide) (by decide)

/-- C1 counterexample: a door lock update whose battery_level is None makes
int() raise TypeError, which the validator does not catch: the call yields an
escaping exception instead of an (ok, errors) result, refuting the claim that
no exception ever passes the validator boundary. -/
theorem c1_exception_escapes_counterexample :
    validate_device_data
      [("parameters", PyValue.dict [("battery_level", PyValue.none)])]
      false "door_lock" =
      .error (.typeError
        "int() argument must be a string, a bytes-like object or a real number, not 'NoneType'") :=
  rfl

/-- C1 amended: coercion failures that raise ValueError (non-numeric strings)
are reported as the numeric-string error message, and an unknown device type
is reported as a single error in the returned list; but a value whose int()
coercion raises TypeError (None or a list for an int-typed parameter) escapes
the checker as an exception instead of being reported. -/
theorem c1_error_reporting_amended :
    (∀ (s name : String) (vr : VRange), pyParseInt s = Option.none →
      verify_type_and_range (.str s) name .int vr =
        .ok (false, some (name ++ " must be a numeric string, got " ++ s ++ " instead.")))
    ∧ (∀ (name : String) (vr : VRange),
      verify_type_and_range PyValue.none name .int vr =
        .error (.typeError
          "int() argument must be a string, a bytes-like object or a real number, not 'NoneType'"))
    ∧ (∀ (xs : List PyValue) (name : String) (vr : VRange),
      verify_type_and_range (.list xs) name .int vr =
        .error (.typeError
          "int() argument must be a string, a bytes-like object or a real number, not 'list'"))
    ∧ (∀ (d : PyDict) (dt : String), DEVICE_TYPES.contains dt = false →
      (pyKeys d).contains "id" = false → (pyKeys d).contains "type" = false →
      validate_device_data d false dt =
        .ok (false, [incorrectDeviceTypeError (.str dt)])) := by
  refine ⟨?_, ?_, ?_, ?_⟩
  · intro s name vr h
    simp [verify_type_and_range, pyInt, h, pyStr]
  · intro name vr
    rfl
  · intro xs name vr
    rfl
  · intro d dt h1 h2 h3
    have h1m : dt ∉ DEVICE_TYPES := by simpa using h1
    have h2m : "id" ∉ pyKeys d := by simpa using h2
    have h3m : "type" ∉ pyKeys d := by simpa using h3
    simp [validate_device_data, validateTyped, resolveDeviceType, h1m, h2m, h3m]

theorem c1_error_reporting_amended_witness :
    verify_type_and_range (.str "abc") "'battery_level'" .int (.tup 0 100) =
      .ok (false, some "'battery_level' must be a numeric string, got abc instead.")
    ∧ validate_device_data [("room", PyValue.none)] false "toaster" =
      .ok (false, [incorrectDeviceTypeError (PyValue.str "toaster")]) :=
  ⟨c1_error_reporting_amended.1 "abc" "'battery_level'" (.tup 0 100) (by decide),
   c1_error_reporting_amended.2.2.2 [("room", PyValue.none)] "toaster"
     (by decide) (by decide) (by decide)⟩
